import Mathlib

/-!
Verification of the geometric core of the flat-earth visualization.

The program renders a world map on an azimuthal-equidistant disk and shades
the night hemisphere relative to a draggable sun position.  The source is a
single C++ file; its geometric core (the `LatLon` value type with a haversine
distance and the projection pair `to_azimuthal_equidistant` /
`from_azimuthal_equidistant`) and the per-frame decisions of `main` are
embedded below over the real numbers, following the source expression by
expression.  C float arithmetic is modelled by exact real arithmetic; the C
library functions `sinf`, `cosf`, `sqrtf`, `asin` and `atan2f` are modelled by
their exact mathematical counterparts.
-/

namespace FlatEarth

open Real

/-- Model of the C library `atan2f y x`: the principal argument of the planar
point `(x, y)`, with values in `(-π, π]`.  (Reals have no signed zeros, so the
IEEE distinction between `atan2(±0, x)` collapses.) -/
noncomputable def atan2 (y x : ℝ) : ℝ := Complex.arg (x + y * Complex.I)

/-- `deg2rad` from the source: converts decimal degrees to radians. -/
noncomputable def deg2rad (deg : ℝ) : ℝ := deg * Real.pi / 180

/-- `rad2deg` from the source: converts radians to decimal degrees. -/
noncomputable def rad2deg (rad : ℝ) : ℝ := rad * 180 / Real.pi

/-- The `LatLon` struct from the source: latitude-longitude coordinates.
`lat` is 90 at the north pole and -90 at the south pole; `lon` is 0 through
London, ±180 at the other side, positive going west. -/
@[ext]
structure LatLon where
  lat : ℝ
  lon : ℝ

/-- `LatLon::spherical_distance` from the source: length of the path between
two points along a great circle, by the haversine formula, in kilometers. -/
noncomputable def LatLon.spherical_distance (p other : LatLon) : ℝ :=
  let earth_radius_km : ℝ := 6371
  let lat1r := deg2rad p.lat
  let lon1r := deg2rad p.lon
  let lat2r := deg2rad other.lat
  let lon2r := deg2rad other.lon
  let u := Real.sin ((lat2r - lat1r) / 2)
  let v := Real.sin ((lon2r - lon1r) / 2)
  2 * earth_radius_km *
    Real.arcsin (Real.sqrt (u * u + Real.cos lat1r * Real.cos lat2r * v * v))

/-- `LatLon::to_azimuthal_equidistant` from the source: map to the x-y
representation on the azimuthal equidistant projection. -/
noncomputable def LatLon.to_azimuthal_equidistant (p : LatLon) : ℝ × ℝ :=
  let r := -(p.lat - 90) / 180
  let th := deg2rad p.lon
  (r * (-Real.sin th), r * Real.cos th)

/-- `LatLon::from_azimuthal_equidistant` from the source: compute a `LatLon`
from x-y azimuthal equidistant projection coordinates. -/
noncomputable def LatLon.from_azimuthal_equidistant (coords : ℝ × ℝ) : LatLon :=
  let r := Real.sqrt (coords.1 * coords.1 + coords.2 * coords.2)
  let th := atan2 (-coords.1) coords.2
  { lat := -r * 180 + 90, lon := rad2deg th }

/-- The haversine reference computation, written from the spec's words:
convert both points to radians, `u = sin((lat2-lat1)/2)`,
`v = sin((lon2-lon1)/2)`, `distance = 2 * R * asin(sqrt(u² + cos(lat1) *
cos(lat2) * v²))` with `R = 6371` km. -/
noncomputable def haversine_reference (a b : LatLon) : ℝ :=
  let R : ℝ := 6371
  let lat1 := deg2rad a.lat
  let lat2 := deg2rad b.lat
  let lon1 := deg2rad a.lon
  let lon2 := deg2rad b.lon
  let u := Real.sin ((lat2 - lat1) / 2)
  let v := Real.sin ((lon2 - lon1) / 2)
  2 * R * Real.arcsin (Real.sqrt (u ^ 2 + Real.cos lat1 * Real.cos lat2 * v ^ 2))

/-- The argument of `sqrt` inside `spherical_distance`, named so that the
domain-safety facts can speak about it. -/
noncomputable def haversine_sqrt_arg (p other : LatLon) : ℝ :=
  let lat1r := deg2rad p.lat
  let lon1r := deg2rad p.lon
  let lat2r := deg2rad other.lat
  let lon2r := deg2rad other.lon
  let u := Real.sin ((lat2r - lat1r) / 2)
  let v := Real.sin ((lon2r - lon1r) / 2)
  u * u + Real.cos lat1r * Real.cos lat2r * v * v

theorem spherical_distance_eq (p other : LatLon) :
    p.spherical_distance other =
      2 * 6371 * Real.arcsin (Real.sqrt (haversine_sqrt_arg p other)) := rfl

/-- The per-tile geographic coordinate computed by the illumination loop in
`main`: `LatLon::from_azimuthal_equidistant((Vector2f(x, y) - Vector2f(400,
400)) / 400.f)`. -/
noncomputable def tile_latlon (x y : ℝ) : LatLon :=
  LatLon.from_azimuthal_equidistant ((x - 400) / 400, (y - 400) / 400)

/-- The skip condition of the illumination loop in `main`: the shadow tile is
not drawn when the point is outside of the map or the distance from the sun
marker is less than a quarter of the Earth circumference. -/
noncomputable def shade_skip (point g : LatLon) : Prop :=
  g.lat < -90 ∨ point.spherical_distance g < 40075 / 4

/-- A pixel tile at `(x, y)` is drawn shaded exactly when the loop body in
`main` does not `continue` past it. -/
noncomputable def tile_shaded (point : LatLon) (x y : ℝ) : Prop :=
  ¬ shade_skip point (tile_latlon x y)

/-- The per-frame sun update in `main`: if space is pressed (the select input
is active), `point` becomes `from_azimuthal_equidistant((coord - Vector2f(400,
400)) / 400.f)`; otherwise `point` is left as it was. -/
noncomputable def update_sun (select_active : Bool) (coord : ℝ × ℝ)
    (point : LatLon) : LatLon :=
  if select_active then
    LatLon.from_azimuthal_equidistant ((coord.1 - 400) / 400, (coord.2 - 400) / 400)
  else point

/-- Outcome of the startup sequence of `main`, as far as the map texture load
is concerned. -/
structure StartupOutcome where
  exit_code : Option Nat
  entered_render_loop : Bool
  reported_error : Bool
  deriving DecidableEq

/-- The startup control flow of `main`: if `texture.loadFromFile("../../map.jpg")`
fails, print an error to stderr and `return 1` before the render loop;
otherwise continue into the render loop. -/
def startup (map_load_ok : Bool) : StartupOutcome :=
  if map_load_ok then
    { exit_code := none, entered_render_loop := true, reported_error := false }
  else
    { exit_code := some 1, entered_render_loop := false, reported_error := true }

theorem pow_two_eq_mul_self (x : ℝ) : x ^ 2 = x * x := by ring

/-- For a positive radius `r` and an angle `θ` in the principal range,
`atan2` recovers `θ` from the planar point `(r cos θ, r sin θ)`. -/
theorem atan2_r_sin_cos {r θ : ℝ} (hr : 0 < r)
    (hθ : θ ∈ Set.Ioc (-Real.pi) Real.pi) :
    atan2 (r * Real.sin θ) (r * Real.cos θ) = θ := by
  unfold atan2
  have h : ((r * Real.cos θ : ℝ) : ℂ) + ((r * Real.sin θ : ℝ) : ℂ) * Complex.I
      = (r : ℂ) * (Real.cos θ + Real.sin θ * Complex.I) := by
    push_cast
    ring
  rw [h, Complex.arg_real_mul _ hr, Complex.ofReal_cos, Complex.ofReal_sin,
    Complex.arg_cos_add_sin_mul_I hθ]

theorem spherical_distance_self (p : LatLon) : p.spherical_distance p = 0 := by
  unfold LatLon.spherical_distance
  dsimp only
  rw [sub_self, sub_self]
  norm_num [Real.arcsin_zero]

/-- C2: `spherical_distance` coincides with the haversine reference formula
stated in the spec, for every pair of geographic points. -/
theorem spherical_distance_is_haversine (a b : LatLon) :
    a.spherical_distance b = haversine_reference a b := by
  unfold LatLon.spherical_distance haversine_reference
  dsimp only
  ring_nf

/-- C6: `spherical_distance` is symmetric in its two arguments, for all
inputs including out-of-range coordinates. -/
theorem spherical_distance_symm (a b : LatLon) :
    a.spherical_distance b = b.spherical_distance a := by
  unfold LatLon.spherical_distance
  dsimp only
  rw [show (deg2rad a.lat - deg2rad b.lat) / 2
        = -((deg2rad b.lat - deg2rad a.lat) / 2) by ring,
      show (deg2rad a.lon - deg2rad b.lon) / 2
        = -((deg2rad b.lon - deg2rad a.lon) / 2) by ring,
      Real.sin_neg, Real.sin_neg]
  ring_nf

/-- C5: a planar point at radius strictly greater than 1 is mapped by
`from_azimuthal_equidistant` to a latitude strictly below -90. -/
theorem from_azimuthal_out_of_disk (x y : ℝ)
    (h : 1 < Real.sqrt (x * x + y * y)) :
    (LatLon.from_azimuthal_equidistant (x, y)).lat < -90 := by
  unfold LatLon.from_azimuthal_equidistant
  simp only
  nlinarith [h]

/-- Witness for C5 at the concrete planar point (0, 2), whose radius is 2. -/
theorem from_azimuthal_out_of_disk_witness :
    1 < Real.sqrt ((0 : ℝ) * 0 + 2 * 2) ∧
      (LatLon.from_azimuthal_equidistant ((0 : ℝ), (2 : ℝ))).lat < -90 := by
  have hs : Real.sqrt ((0 : ℝ) * 0 + 2 * 2) = 2 := by
    rw [show (0 : ℝ) * 0 + 2 * 2 = 2 ^ 2 by norm_num]
    exact Real.sqrt_sq (by norm_num)
  have h1 : 1 < Real.sqrt ((0 : ℝ) * 0 + 2 * 2) := by rw [hs]; norm_num
  exact ⟨h1, from_azimuthal_out_of_disk 0 2 h1⟩

/-- C1 (amended): for every geographic point with `lat ∈ [-90, 90)` and
`lon ∈ (-180, 180]`, `from_azimuthal_equidistant ∘ to_azimuthal_equidistant`
reproduces the point exactly in the real-number model (hence within any
floating-point tolerance).  The north pole `lat = 90` must be excluded: there
the projection collapses to the origin and the longitude is lost. -/
theorem round_trip (p : LatLon) (_h1 : -90 ≤ p.lat) (h2 : p.lat < 90)
    (h3 : -180 < p.lon) (h4 : p.lon ≤ 180) :
    LatLon.from_azimuthal_equidistant p.to_azimuthal_equidistant = p := by
  unfold LatLon.to_azimuthal_equidistant LatLon.from_azimuthal_equidistant
  dsimp only
  have hπ := Real.pi_pos
  set th := deg2rad p.lon with hth
  set r := -(p.lat - 90) / 180 with hrdef
  have hr : 0 < r := by rw [hrdef]; linarith
  have hxy : r * -Real.sin th * (r * -Real.sin th) + r * Real.cos th * (r * Real.cos th)
      = r ^ 2 := by
    linear_combination (r ^ 2) * Real.sin_sq_add_cos_sq th
  have hs : Real.sqrt (r * -Real.sin th * (r * -Real.sin th)
      + r * Real.cos th * (r * Real.cos th)) = r := by
    rw [hxy]
    exact Real.sqrt_sq hr.le
  have hθmem : th ∈ Set.Ioc (-Real.pi) Real.pi := by
    rw [hth]
    unfold deg2rad
    constructor
    · nlinarith
    · nlinarith
  have hat : atan2 (-(r * -Real.sin th)) (r * Real.cos th) = th := by
    rw [show -(r * -Real.sin th) = r * Real.sin th by ring]
    exact atan2_r_sin_cos hr hθmem
  rw [hs, hat]
  refine LatLon.ext ?_ ?_ <;> dsimp only
  · rw [hrdef]; ring
  · rw [hth]; unfold rad2deg deg2rad; field_simp

/-- Witness for the amended C1 at the concrete point `{lat 0, lon 90}`. -/
theorem round_trip_witness :
    -90 ≤ (LatLon.mk 0 90).lat ∧ (LatLon.mk 0 90).lat < 90 ∧
      -180 < (LatLon.mk 0 90).lon ∧ (LatLon.mk 0 90).lon ≤ 180 ∧
      LatLon.from_azimuthal_equidistant
          (LatLon.to_azimuthal_equidistant ⟨0, 90⟩) = ⟨0, 90⟩ :=
  ⟨by norm_num, by norm_num, by norm_num, by norm_num,
    round_trip ⟨0, 90⟩ (by norm_num) (by norm_num) (by norm_num) (by norm_num)⟩

/-- Counterexample to C1 as stated: at the north pole `{lat 90, lon 100}`
(with `lat ∈ [-90, 90]` and `lon ∈ (-180, 180]`), the round trip returns
longitude 0, off by 100 degrees — far beyond a 1e-3-degree tolerance. -/
theorem round_trip_north_pole_cex :
    (LatLon.from_azimuthal_equidistant
        (LatLon.to_azimuthal_equidistant ⟨90, 100⟩)).lat = 90 ∧
      (LatLon.from_azimuthal_equidistant
        (LatLon.to_azimuthal_equidistant ⟨90, 100⟩)).lon = 0 ∧
      ¬ |(100 : ℝ) - 0| ≤ 1e-3 := by
  have h0 : LatLon.to_azimuthal_equidistant ⟨90, 100⟩ = ((0 : ℝ), (0 : ℝ)) := by
    unfold LatLon.to_azimuthal_equidistant
    dsimp only
    norm_num
  rw [h0]
  unfold LatLon.from_azimuthal_equidistant atan2 rad2deg
  dsimp only
  norm_num [Complex.arg_zero]

/-- C7: on each frame, if the select input is active the sun position becomes
`from_azimuthal_equidistant` of the normalized pointer coordinates (a direct
snap), and otherwise it is left exactly unchanged. -/
theorem update_sun_policy (coord : ℝ × ℝ) (point : LatLon) :
    update_sun true coord point =
        LatLon.from_azimuthal_equidistant
          ((coord.1 - 400) / 400, (coord.2 - 400) / 400) ∧
      update_sun false coord point = point := by
  constructor <;> rfl

/-- C3: a pixel tile is drawn shaded exactly when its geographic coordinate is
on the map (`lat ≥ -90`) and its spherical distance from the sun is at least a
quarter of the Earth circumference `40075 / 4 = 10018.75` km; otherwise it is
left unshaded. -/
theorem tile_classification (point : LatLon) (x y : ℝ) :
    (tile_shaded point x y ↔
        -90 ≤ (tile_latlon x y).lat ∧
          40075 / 4 ≤ point.spherical_distance (tile_latlon x y)) ∧
      (40075 : ℝ) / 4 = 10018.75 := by
  constructor
  · unfold tile_shaded shade_skip
    rw [not_or, not_lt, not_lt]
  · norm_num

/-- The sun position hard-coded at startup in `main`: Washington State. -/
noncomputable def washington : LatLon := ⟨47.7511, 120.7401⟩

/-- The point exactly antipodal to `washington`. -/
noncomputable def washington_antipode : LatLon := ⟨-47.7511, -59.2599⟩

theorem distance_washington_antipode :
    washington.spherical_distance washington_antipode = 6371 * Real.pi := by
  unfold LatLon.spherical_distance washington washington_antipode
  dsimp only
  have ha : (deg2rad (-47.7511 : ℝ) - deg2rad (47.7511 : ℝ)) / 2
      = -deg2rad (47.7511 : ℝ) := by
    unfold deg2rad; ring
  have hv : (deg2rad (-59.2599 : ℝ) - deg2rad (120.7401 : ℝ)) / 2
      = -(Real.pi / 2) := by
    unfold deg2rad; ring
  have hc : Real.cos (deg2rad (-47.7511 : ℝ)) = Real.cos (deg2rad (47.7511 : ℝ)) := by
    rw [show deg2rad (-47.7511 : ℝ) = -deg2rad (47.7511 : ℝ) by unfold deg2rad; ring,
      Real.cos_neg]
  rw [ha, hv, hc, Real.sin_neg, Real.sin_neg, Real.sin_pi_div_two]
  rw [show -Real.sin (deg2rad 47.7511) * -Real.sin (deg2rad 47.7511)
        + Real.cos (deg2rad 47.7511) * Real.cos (deg2rad 47.7511) * -1 * -1
      = (1 : ℝ) by linear_combination Real.sin_sq_add_cos_sq (deg2rad 47.7511)]
  rw [Real.sqrt_one, Real.arcsin_one]
  ring

/-- C4: with the sun at Washington State `{47.7511, 120.7401}`, the exactly
antipodal point `{-47.7511, -59.2599}` is at spherical distance `6371·π`
(≈ 20015 km) ≥ the `40075/4` km threshold, so it is classified shaded, while
the sun's own location is at distance 0 < threshold, so it is unshaded. -/
theorem scenario_antipodal_shading :
    washington.spherical_distance washington_antipode = 6371 * Real.pi ∧
      ¬ shade_skip washington washington_antipode ∧
      washington.spherical_distance washington = 0 ∧
      shade_skip washington washington := by
  have hd := distance_washington_antipode
  have hπ := Real.pi_gt_three
  refine ⟨hd, ?_, spherical_distance_self washington, ?_⟩
  · unfold shade_skip washington_antipode
    push_neg
    constructor
    · dsimp only; norm_num
    · rw [show LatLon.mk (-47.7511) (-59.2599) = washington_antipode from rfl, hd]
      nlinarith
  · unfold shade_skip
    right
    rw [spherical_distance_self washington]
    norm_num

/-- C9: on the valid domain (both latitudes in `[-90, 90]`), the argument of
`sqrt` in `spherical_distance` is nonnegative and at most 1, the argument of
`asin` lies in `[0, 1]`, and the distance itself lies in `[0, π·6371]` km. -/
theorem haversine_domain_safe (a b : LatLon)
    (ha1 : -90 ≤ a.lat) (ha2 : a.lat ≤ 90)
    (hb1 : -90 ≤ b.lat) (hb2 : b.lat ≤ 90) :
    0 ≤ haversine_sqrt_arg a b ∧ haversine_sqrt_arg a b ≤ 1 ∧
      0 ≤ Real.sqrt (haversine_sqrt_arg a b) ∧
      Real.sqrt (haversine_sqrt_arg a b) ≤ 1 ∧
      0 ≤ a.spherical_distance b ∧
      a.spherical_distance b ≤ Real.pi * 6371 := by
  have hπ := Real.pi_pos
  have hcA : 0 ≤ Real.cos (deg2rad a.lat) := by
    apply Real.cos_nonneg_of_mem_Icc
    unfold deg2rad
    constructor
    · nlinarith
    · nlinarith
  have hcB : 0 ≤ Real.cos (deg2rad b.lat) := by
    apply Real.cos_nonneg_of_mem_Icc
    unfold deg2rad
    constructor
    · nlinarith
    · nlinarith
  set A := deg2rad a.lat
  set B := deg2rad b.lat
  set L := deg2rad b.lon - deg2rad a.lon with hL
  have harg_ge : 0 ≤ haversine_sqrt_arg a b := by
    unfold haversine_sqrt_arg
    dsimp only
    nlinarith [mul_self_nonneg (Real.sin ((B - A) / 2)),
      mul_nonneg (mul_nonneg hcA hcB) (mul_self_nonneg (Real.sin (L / 2)))]
  have hu : Real.sin ((B - A) / 2) * Real.sin ((B - A) / 2)
      = 1 / 2 - Real.cos (B - A) / 2 := by
    have h := Real.sin_sq_eq_half_sub ((B - A) / 2)
    rw [show 2 * ((B - A) / 2) = B - A by ring] at h
    linear_combination h - pow_two_eq_mul_self (Real.sin ((B - A) / 2))
  have hv : Real.sin (L / 2) * Real.sin (L / 2)
      = 1 / 2 - Real.cos L / 2 := by
    have h := Real.sin_sq_eq_half_sub (L / 2)
    rw [show 2 * (L / 2) = L by ring] at h
    linear_combination h - pow_two_eq_mul_self (Real.sin (L / 2))
  have harg_le : haversine_sqrt_arg a b ≤ 1 := by
    unfold haversine_sqrt_arg
    dsimp only
    nlinarith [hu, hv, Real.cos_sub B A, Real.cos_add A B,
      Real.cos_le_one (A + B), Real.neg_one_le_cos L,
      mul_nonneg (mul_nonneg hcA hcB)
        (by linarith [Real.neg_one_le_cos L] : (0 : ℝ) ≤ 1 + Real.cos L)]
  have hsq_ge : 0 ≤ Real.sqrt (haversine_sqrt_arg a b) := Real.sqrt_nonneg _
  have hsq_le : Real.sqrt (haversine_sqrt_arg a b) ≤ 1 := by
    calc Real.sqrt (haversine_sqrt_arg a b) ≤ Real.sqrt 1 :=
          Real.sqrt_le_sqrt harg_le
      _ = 1 := Real.sqrt_one
  have hasn_ge : 0 ≤ Real.arcsin (Real.sqrt (haversine_sqrt_arg a b)) :=
    Real.arcsin_nonneg.mpr hsq_ge
  have hasn_le : Real.arcsin (Real.sqrt (haversine_sqrt_arg a b)) ≤ Real.pi / 2 :=
    Real.arcsin_le_pi_div_two _
  refine ⟨harg_ge, harg_le, hsq_ge, hsq_le, ?_, ?_⟩
  · rw [spherical_distance_eq]
    positivity
  · rw [spherical_distance_eq]
    linarith

/-- Witness for C9 at the concrete points `{0, 0}` and `{45, 90}`. -/
theorem haversine_domain_safe_witness :
    (-90 ≤ (LatLon.mk 0 0).lat ∧ (LatLon.mk 0 0).lat ≤ 90 ∧
        -90 ≤ (LatLon.mk 45 90).lat ∧ (LatLon.mk 45 90).lat ≤ 90) ∧
      (0 ≤ haversine_sqrt_arg ⟨0, 0⟩ ⟨45, 90⟩ ∧
        haversine_sqrt_arg ⟨0, 0⟩ ⟨45, 90⟩ ≤ 1 ∧
        0 ≤ Real.sqrt (haversine_sqrt_arg ⟨0, 0⟩ ⟨45, 90⟩) ∧
        Real.sqrt (haversine_sqrt_arg ⟨0, 0⟩ ⟨45, 90⟩) ≤ 1 ∧
        0 ≤ LatLon.spherical_distance ⟨0, 0⟩ ⟨45, 90⟩ ∧
        LatLon.spherical_distance ⟨0, 0⟩ ⟨45, 90⟩ ≤ Real.pi * 6371) :=
  ⟨⟨by norm_num, by norm_num, by norm_num, by norm_num⟩,
    haversine_domain_safe ⟨0, 0⟩ ⟨45, 90⟩
      (by norm_num) (by norm_num) (by norm_num) (by norm_num)⟩

/-- C10: for every planar input, `from_azimuthal_equidistant` returns a
latitude at most 90 and a longitude in `[-180, 180]`: only the lower latitude
bound can be exceeded (the off-map sentinel), never the upper one. -/
theorem from_azimuthal_range (coords : ℝ × ℝ) :
    (LatLon.from_azimuthal_equidistant coords).lat ≤ 90 ∧
      -180 ≤ (LatLon.from_azimuthal_equidistant coords).lon ∧
      (LatLon.from_azimuthal_equidistant coords).lon ≤ 180 := by
  unfold LatLon.from_azimuthal_equidistant atan2 rad2deg
  dsimp only
  have hπ := Real.pi_pos
  have hs := Real.sqrt_nonneg (coords.1 * coords.1 + coords.2 * coords.2)
  have h1 := Complex.neg_pi_lt_arg
    ((coords.2 : ℂ) + ((-coords.1 : ℝ) : ℂ) * Complex.I)
  have h2 := Complex.arg_le_pi
    ((coords.2 : ℂ) + ((-coords.1 : ℝ) : ℂ) * Complex.I)
  refine ⟨by linarith, ?_, ?_⟩
  · rw [le_div_iff₀ hπ]
    linarith
  · rw [div_le_iff₀ hπ]
    linarith

/-- C8: when the world-map texture fails to load, `main` reports the error and
exits with status 1 (non-zero) before entering the render loop; when it loads,
no error is reported and the render loop is entered. -/
theorem startup_error_handling :
    startup false = { exit_code := some 1, entered_render_loop := false,
                      reported_error := true } ∧
      (1 : Nat) ≠ 0 ∧
      startup true = { exit_code := none, entered_render_loop := true,
                       reported_error := false } := by
  refine ⟨rfl, ?_, rfl⟩
  decide

end FlatEarth
